import Mathlib

/-!
# Verification of the celestia remote-resource cache and paginated view

Shallow embedding of `src/main.py`.  The subject is the image-cache
subsystem (`image_cache`, `INACTIVE_CHARTS`, `refresh_image_cache`, the
`view`/`cameras`/`charts`/`satellites` command bodies) and the paginated
server listing (`servers_command` with its inner `PageView` and
`update_owners`).

Conventions of the embedding:
* Python dicts are association lists `List (String × α)`: lookup returns the
  first binding, assignment replaces the first binding in place (keeping its
  position, as CPython dicts do) or appends a new one.  Payload dicts parsed
  from JSON (`fresh_data = response.json().get('images', {})`) have unique
  keys, so first-binding lookup agrees with Python lookup.
* `time.time()` timestamps are natural-number seconds.
* The HTTP GET performed by `requests.get` is a parameter: a
  `FetchResult` is either the decoded `images` object or a
  `requests.exceptions.RequestException` message.  Every call of
  `refresh_image_cache` issues exactly one listing GET (the request is made
  before any branching), which the embedding records as a call count.
* `logger.error` output is collected in a `List String`; it is process log
  output, not part of any value returned to a caller (the Python coroutine
  `refresh_image_cache` returns `None` on every path).
-/

/-- One entry of the upstream `images` payload: the per-resource JSON object.
`view_command`/listing commands index `name` and `url` directly and use
`.get` for `category` and `description`, so the latter two are optional.
The upstream `cache` field is carried verbatim (the source never reads it). -/
structure RawImage where
  name : String
  description : Option String
  url : String
  category : Option String
  cache : Option Nat
deriving DecidableEq, Repr

/-- A cached record: the raw payload object spread together with the
`'last_updated': current_timestamp` stamp added at store time
(`{**fresh_data[k], 'last_updated': current_timestamp}`). -/
structure CachedImage where
  raw : RawImage
  last_updated : Nat
deriving DecidableEq, Repr

/-- The process-wide `image_cache` global: `{'last_updated': 0, 'data': {}}`. -/
structure ImageCache where
  last_updated : Nat
  data : List (String × CachedImage)
deriving DecidableEq, Repr

/-- `image_cache` at process start. -/
def initialCache : ImageCache := { last_updated := 0, data := [] }

/-- The `INACTIVE_CHARTS` deny-list (src/main.py lines 45-53). -/
def INACTIVE_CHARTS : List String :=
  ["goes1315", "hobartmag", "launcestonmag", "hobartkindex",
   "launcestonkindex", "wing-kp-12-hour", "goes-magnetometer"]

/-- Outcome of the listing GET `requests.get(api_url, ...)` followed by
`response.raise_for_status()` and `response.json().get('images', {})`:
either the decoded payload or a `RequestException` message. -/
inductive FetchResult where
  | ok (images : List (String × RawImage))
  | error (msg : String)
deriving DecidableEq, Repr

/-- First-binding lookup in an association list (Python `d.get(k)` /
`k in d` on a unique-key dict). -/
def dictGet {α : Type} (k : String) : List (String × α) → Option α
  | [] => none
  | (k', v) :: rest => if k' = k then some v else dictGet k rest

/-- Python dict assignment `d[k] = v`: replace the first binding of `k`
in place, or append a fresh binding when `k` is absent. -/
def dictSet {α : Type} (k : String) (v : α) : List (String × α) → List (String × α)
  | [] => [(k, v)]
  | (k', v') :: rest => if k' = k then (k, v) :: rest else (k', v') :: dictSet k v rest

/-- The dict comprehension of the full-refresh branch (src/main.py lines
476-480): every payload entry whose id is not deny-listed, in payload
order, spread together with `'last_updated': current_timestamp`. -/
def stampAll (fresh_data : List (String × RawImage)) (now : Nat) :
    List (String × CachedImage) :=
  (fresh_data.filter (fun kv => !decide (kv.1 ∈ INACTIVE_CHARTS))).map
    (fun kv => (kv.1, ⟨kv.2, now⟩))

/-- Result of one `refresh_image_cache` coroutine run: the new value of the
`image_cache` global, the `logger.error` lines emitted, and the number of
listing GETs issued.  The Python function itself returns `None` on every
path, so no component of this record is a value handed back to the caller. -/
structure RefreshResult where
  cache : ImageCache
  log : List String
  fetchCalls : Nat
deriving DecidableEq, Repr

/-- `refresh_image_cache(specific_image=None)` (src/main.py lines 458-484).

The GET is issued first (one call per run, counted even when it raises).
On `RequestException` the handler logs `'API request failed: ...'` and falls
through, leaving `image_cache` untouched.  On success, with
`specific_image` set, the single record is overwritten only when the id is
in `fresh_data` and not in `INACTIVE_CHARTS`, and the cache-wide
`last_updated` is not touched; with no `specific_image` the whole `data`
dict is rebuilt from the payload minus deny-listed ids (payload keys are
unique, so the dict comprehension is the filtered map below) and the
cache-wide `last_updated` is stamped. -/
def refresh_image_cache (specific_image : Option String) (fetch : FetchResult)
    (now : Nat) (c : ImageCache) : RefreshResult :=
  match fetch with
  | .error msg => { cache := c, log := ["API request failed: " ++ msg], fetchCalls := 1 }
  | .ok fresh_data =>
    match specific_image with
    | some s =>
      match dictGet s fresh_data with
      | some raw =>
        if s ∈ INACTIVE_CHARTS then { cache := c, log := [], fetchCalls := 1 }
        else { cache := { c with data := dictSet s ⟨raw, now⟩ c.data },
               log := [], fetchCalls := 1 }
      | none => { cache := c, log := [], fetchCalls := 1 }
    | none =>
      { cache := { last_updated := now, data := stampAll fresh_data now },
        log := [], fetchCalls := 1 }

/-- What the `view` command sends back: a plain text followup or the embed
(title, image url, footer). -/
inductive ViewOutcome where
  | message (text : String)
  | embed (title imageUrl footer : String)
deriving DecidableEq, Repr

/-- The cache-busting URL of src/main.py line 167:
`f"{resource_data['url']}?t={int(time.time())}"`. -/
def imageUrl (url : String) (t : Nat) : String := url ++ "?t=" ++ toString t

/-- Result of one `view_command` run: the followup sent to the user, the
cache state afterwards, the listing GET count, and the process log. -/
structure ViewResult where
  outcome : ViewOutcome
  cache : ImageCache
  fetchCalls : Nat
  log : List String
deriving DecidableEq, Repr

/-- `view_command` (src/main.py lines 148-174), after the defer.  A
deny-listed id is answered immediately, before any fetch; otherwise a
forced single-record refresh runs and the (possibly updated) cache is
consulted.  `tServe` is the `int(time.time())` taken while building the
embed. -/
def view_command (resource_id : String) (fetch : FetchResult)
    (now tServe : Nat) (c : ImageCache) : ViewResult :=
  if resource_id ∈ INACTIVE_CHARTS then
    { outcome := .message "This chart is currently inactive and unavailable.",
      cache := c, fetchCalls := 0, log := [] }
  else
    let r := refresh_image_cache (some resource_id) fetch now c
    match dictGet resource_id r.cache.data with
    | none =>
      { outcome := .message "Resource not found",
        cache := r.cache, fetchCalls := r.fetchCalls, log := r.log }
    | some found =>
      { outcome := .embed found.raw.name (imageUrl found.raw.url tServe)
          (found.raw.description.getD ""),
        cache := r.cache, fetchCalls := r.fetchCalls, log := r.log }

/-- `needle` occurs contiguously inside `hay` (Python `needle in hay` on
strings), on character lists. -/
def listContainsSub (needle : List Char) : List Char → Bool
  | [] => needle.isEmpty
  | c :: rest => needle.isPrefixOf (c :: rest) || listContainsSub needle rest

/-- Python substring test `needle in hay`. -/
def strContainsSub (hay needle : String) : Bool :=
  listContainsSub needle.data hay.data

/-- Python `str.lower()`, as a character-wise map. -/
def strToLower (s : String) : String := ⟨s.data.map Char.toLower⟩

/-- The `camera_list` comprehension of `cameras_command` (src/main.py lines
182-186): category equals `'cam'` AND the lowercased name contains
`'yellowknife'` or `'rothney'`. -/
def camera_list (c : ImageCache) : List (String × CachedImage) :=
  c.data.filter (fun kv =>
    kv.2.raw.category == some "cam" &&
    (["yellowknife", "rothney"].any (fun loc =>
      strContainsSub (strToLower kv.2.raw.name) loc)))

/-- The `chart_list` comprehension of `charts_command` (src/main.py lines
208-211): category equals `'chart'` and the id is not deny-listed. -/
def chart_list (c : ImageCache) : List (String × CachedImage) :=
  c.data.filter (fun kv =>
    kv.2.raw.category == some "chart" && !decide (kv.1 ∈ INACTIVE_CHARTS))

/-- The `satellite_list` comprehension of `satellites_command` (src/main.py
lines 233-236): category equals `'satellite'`. -/
def satellite_list (c : ImageCache) : List (String × CachedImage) :=
  c.data.filter (fun kv => kv.2.raw.category == some "satellite")

/-- Result of one listing-command run. -/
structure ListingResult where
  items : List (String × CachedImage)
  cache : ImageCache
  fetchCalls : Nat
deriving DecidableEq, Repr

/-- One listing-command run (`cameras`/`charts`/`satellites`, src/main.py
lines 176-250 all share this shape): an unconditional full refresh
(`await refresh_image_cache()`), then the filtered snapshot of the
refreshed cache. -/
def listing_command (select : ImageCache → List (String × CachedImage))
    (fetch : FetchResult) (now : Nat) (c : ImageCache) : ListingResult :=
  let r := refresh_image_cache none fetch now c
  { items := select r.cache, cache := r.cache, fetchCalls := r.fetchCalls }

/-- One call of `refresh_image_cache` as seen by the cache state: the
`specific_image` argument, the outcome of the listing GET, and the
`time.time()` value of the run. -/
def RefreshCall : Type := Option String × FetchResult × Nat

/-- The effect of one `refresh_image_cache` run on the `image_cache` global. -/
def applyRefresh (c : ImageCache) (call : RefreshCall) : ImageCache :=
  (refresh_image_cache call.1 call.2.1 call.2.2 c).cache

/-- The `image_cache` global after a sequence of `refresh_image_cache` runs
starting from process start (startup refresh, 15-minute timer ticks, forced
view refreshes, listing refreshes — all funnel through the same function). -/
def runRefreshes (calls : List RefreshCall) : ImageCache :=
  calls.foldl applyRefresh initialCache

/-! ## The paginated server listing (`servers_command`, src/main.py 272-451)

`PageView` (lines 407-443) keeps `self.page`; each button callback edits the
message with `make_embed(self.page)`'s placeholder embed and then awaits
`update_owners`, whose final action is `await self.message.edit(embed=...)`
with the embed built for the page the run was launched for.  `update_owners`
suspends at the owner lookups, so a button press can arrive while a previous
run is still in flight; nothing records a page generation, and the late
`message.edit` runs unconditionally.  The embedding is a state machine:
`page` is `PageView.page`, `shownPage`/`shownEnriched` describe which page's
embed the Discord message currently displays and whether its owner fields
have been patched in, and `pending` lists the pages whose `update_owners`
runs are still in flight. -/

/-- The three `PageView` buttons. -/
inductive NavButton where
  | previous
  | next
  | refreshButton
deriving DecidableEq, Repr

/-- State of the server-listing session: the `PageView`, the displayed
message, and the in-flight `update_owners` runs (tagged by the page whose
embed they will write). -/
structure ServerPageState where
  page : Nat
  shownPage : Nat
  shownEnriched : Bool
  pending : List Nat
deriving DecidableEq, Repr

/-- A button callback (src/main.py lines 413-443).  `previous`/`next` move
`self.page` only inside the clamp guard (`self.page > 0`, resp.
`self.page < total_pages - 1`); when they move (and always for the refresh
button) the message is re-rendered with the new page's placeholder embed and
an `update_owners` run for that page is launched.  A guarded-out press only
defers the interaction and changes nothing. -/
def pressStep (total_pages : Nat) (b : NavButton) (s : ServerPageState) :
    ServerPageState :=
  match b with
  | .previous =>
    if s.page > 0 then
      { page := s.page - 1, shownPage := s.page - 1, shownEnriched := false,
        pending := s.pending ++ [s.page - 1] }
    else s
  | .next =>
    if s.page < total_pages - 1 then
      { page := s.page + 1, shownPage := s.page + 1, shownEnriched := false,
        pending := s.pending ++ [s.page + 1] }
    else s
  | .refreshButton =>
    { s with shownPage := s.page, shownEnriched := false,
             pending := s.pending ++ [s.page] }

/-- Completion of an in-flight `update_owners` run for page `p`: its final
`await self.message.edit(embed=updated_embed)` replaces the displayed
message with page `p`'s enriched embed, with no check of `self.page` or any
generation token. -/
def finishStep (p : Nat) (s : ServerPageState) : ServerPageState :=
  if p ∈ s.pending then
    { s with shownPage := p, shownEnriched := true, pending := s.pending.erase p }
  else s

/-- The session right after src/main.py lines 445-450: the view is attached
with `self.page = 0`, the message shows page 0's placeholder embed, and the
initial `update_owners` run for page 0 is in flight. -/
def initialServerView : ServerPageState :=
  { page := 0, shownPage := 0, shownEnriched := false, pending := [0] }

/-- A sequence of button presses applied to the session. -/
def applyButtons (total_pages : Nat) (bs : List NavButton) (s : ServerPageState) :
    ServerPageState :=
  bs.foldl (fun s b => pressStep total_pages b s) s

/-- The `total_pages` formula of src/main.py line 302,
`(total_guilds + guilds_per_page - 1) // guilds_per_page`, with the page
size as a parameter (the source fixes `guilds_per_page = 10`). -/
def pageCount (n pageSize : Nat) : Nat := (n + pageSize - 1) / pageSize

/-- `guilds_per_page` (src/main.py line 300). -/
def guilds_per_page : Nat := 10

/-! ## Spec-side definitions, for refinement comparisons only

Each of the following renders a sentence of the specification in Lean, to be
compared against the definitions above that embed the source. -/

/-- The spec's cache-busting convention (§6): `t=<unix-seconds>` appended
with `?`, or `&`-joined when the URL already has a query string. -/
def specCacheBustUrl (url : String) (t : Nat) : String :=
  if url.data.contains '?' then url ++ "&t=" ++ toString t
  else url ++ "?t=" ++ toString t

/-- The spec's `list(category)` (§4.1): all cached records of the category,
with no further filtering, in cache insertion order. -/
def specListCategory (cat : String) (c : ImageCache) : List (String × CachedImage) :=
  c.data.filter (fun kv => kv.2.raw.category == some cat)

/-- The spec's global TTL default (§3 gives 3600 as the example constant). -/
def DEFAULT_TTL : Nat := 3600

/-- The spec's `isFresh(id)` (§4.1): `now - record.lastRefreshedAt <
record.ttlSeconds`, with `ttlSeconds` the upstream per-resource `cache`
field, defaulting to the global constant when absent. -/
def isFreshSpec (now : Nat) (c : ImageCache) (id : String) : Bool :=
  match dictGet id c.data with
  | none => false
  | some r => decide (now - r.last_updated < r.raw.cache.getD DEFAULT_TTL)

/-- The spec's enrichment-isolation guarantee (§4.4) at one step: completing
an in-flight enrichment run for page `p` leaves the displayed rendering
untouched (the late result is discarded, never applied). -/
def lateResultDiscarded (s : ServerPageState) (p : Nat) : Prop :=
  (finishStep p s).shownPage = s.shownPage ∧
  (finishStep p s).shownEnriched = s.shownEnriched

/-! ## Association-list lemmas -/

/-- Assignment stores the value under the assigned key. -/
theorem dictGet_dictSet_self {α : Type} (s : String) (v : α) :
    ∀ d : List (String × α), dictGet s (dictSet s v d) = some v := by
  intro d
  induction d with
  | nil => simp [dictSet, dictGet]
  | cons kv rest ih =>
    obtain ⟨k', v'⟩ := kv
    by_cases h : k' = s
    · simp [dictSet, h, dictGet]
    · simp [dictSet, h, dictGet, ih]

/-- Assignment leaves every other key's binding untouched. -/
theorem dictGet_dictSet_ne {α : Type} {k s : String} (h : k ≠ s) (v : α) :
    ∀ d : List (String × α), dictGet k (dictSet s v d) = dictGet k d := by
  intro d
  induction d with
  | nil => simp [dictSet, dictGet, Ne.symm h]
  | cons kv rest ih =>
    obtain ⟨k', v'⟩ := kv
    by_cases h' : k' = s
    · subst h'
      simp [dictSet, dictGet, Ne.symm h]
    · simp [dictSet, h', dictGet, ih]

/-- A key that looks up to nothing heads no binding of the list. -/
theorem dictGet_none_forall {α : Type} {y : String} :
    ∀ {d : List (String × α)}, dictGet y d = none → ∀ kv ∈ d, kv.1 ≠ y := by
  intro d
  induction d with
  | nil => intro _ kv hkv; cases hkv
  | cons kv' rest ih =>
    obtain ⟨k', v'⟩ := kv'
    intro h kv hkv
    by_cases hk : k' = y
    · simp [dictGet, hk] at h
    · simp [dictGet, hk] at h
      rcases List.mem_cons.1 hkv with h1 | h1
      · subst h1; exact hk
      · exact ih h kv h1

/-- A deny-listed id never appears in the rebuilt full-refresh dict. -/
theorem dictGet_stampAll_denied {y : String} (hy : y ∈ INACTIVE_CHARTS)
    (now : Nat) : ∀ fresh : List (String × RawImage),
    dictGet y (stampAll fresh now) = none := by
  intro fresh
  induction fresh with
  | nil => rfl
  | cons kv rest ih =>
    obtain ⟨k, raw⟩ := kv
    by_cases hk : k ∈ INACTIVE_CHARTS
    · simpa [stampAll, hk] using ih
    · have hne : k ≠ y := fun h => hk (h ▸ hy)
      simpa [stampAll, hk, dictGet, hne] using ih

/-- A payload id that is not deny-listed is stored, stamped, by the full
refresh, with the value of its first payload binding. -/
theorem dictGet_stampAll_mem {x : String} {raw : RawImage} (now : Nat)
    (h2 : x ∉ INACTIVE_CHARTS) :
    ∀ {fresh : List (String × RawImage)}, dictGet x fresh = some raw →
    dictGet x (stampAll fresh now) = some ⟨raw, now⟩ := by
  intro fresh
  induction fresh with
  | nil => intro h; cases h
  | cons kv rest ih =>
    obtain ⟨k, v⟩ := kv
    intro h1
    by_cases hk : k = x
    · subst hk
      simp [dictGet] at h1
      subst h1
      simp [stampAll, h2, dictGet]
    · simp [dictGet, hk] at h1
      by_cases hden : k ∈ INACTIVE_CHARTS
      · simpa [stampAll, hden] using ih h1
      · simpa [stampAll, hden, dictGet, hk] using ih h1

/-! ## The deny-list invariant of the cache -/

/-- One `refresh_image_cache` run never introduces a deny-listed id into
`image_cache['data']`. -/
theorem denied_absent_applyRefresh {y : String} (hy : y ∈ INACTIVE_CHARTS)
    {c : ImageCache} (h : dictGet y c.data = none) (call : RefreshCall) :
    dictGet y (applyRefresh c call).data = none := by
  obtain ⟨spec, fetch, now⟩ := call
  cases fetch with
  | error msg => simpa [applyRefresh, refresh_image_cache] using h
  | ok fresh =>
    cases spec with
    | none =>
      simpa [applyRefresh, refresh_image_cache] using
        dictGet_stampAll_denied hy now fresh
    | some s =>
      cases hg : dictGet s fresh with
      | none => simpa [applyRefresh, refresh_image_cache, hg] using h
      | some raw =>
        by_cases hs : s ∈ INACTIVE_CHARTS
        · simpa [applyRefresh, refresh_image_cache, hg, hs] using h
        · have hne : y ≠ s := fun he => hs (he ▸ hy)
          simpa [applyRefresh, refresh_image_cache, hg, hs,
                 dictGet_dictSet_ne hne] using h

/-- After any sequence of refresh runs from process start, a deny-listed id
is absent from `image_cache['data']`. -/
theorem denied_absent_runRefreshes {y : String} (hy : y ∈ INACTIVE_CHARTS)
    (calls : List RefreshCall) : dictGet y (runRefreshes calls).data = none := by
  suffices h : ∀ (cs : List RefreshCall) (c : ImageCache),
      dictGet y c.data = none → dictGet y (cs.foldl applyRefresh c).data = none by
    exact h calls initialCache rfl
  intro cs
  induction cs with
  | nil => intro c h; exact h
  | cons call rest ih =>
    intro c h
    exact ih (applyRefresh c call) (denied_absent_applyRefresh hy h call)

/-- C1: for a deny-listed id, after any sequence of refresh runs from
process start, direct lookup finds nothing, none of the three listing
snapshots includes the id, and the `view` path answers with the
inactive/unavailable message (the NotFound outcome) while issuing zero
listing GETs, hence at most one. -/
theorem c1_denylist_never_surfaced (y : String) (hy : y ∈ INACTIVE_CHARTS)
    (calls : List RefreshCall) (fetch : FetchResult) (now tServe : Nat) :
    dictGet y (runRefreshes calls).data = none ∧
    (∀ kv ∈ camera_list (runRefreshes calls), kv.1 ≠ y) ∧
    (∀ kv ∈ chart_list (runRefreshes calls), kv.1 ≠ y) ∧
    (∀ kv ∈ satellite_list (runRefreshes calls), kv.1 ≠ y) ∧
    (view_command y fetch now tServe (runRefreshes calls)).outcome =
      .message "This chart is currently inactive and unavailable." ∧
    (view_command y fetch now tServe (runRefreshes calls)).fetchCalls ≤ 1 := by
  have habs := denied_absent_runRefreshes hy calls
  refine ⟨habs, ?_, ?_, ?_, ?_, ?_⟩
  · intro kv hkv
    exact dictGet_none_forall habs kv (List.mem_of_mem_filter hkv)
  · intro kv hkv
    exact dictGet_none_forall habs kv (List.mem_of_mem_filter hkv)
  · intro kv hkv
    exact dictGet_none_forall habs kv (List.mem_of_mem_filter hkv)
  · simp [view_command, hy]
  · simp [view_command, hy]

/-- C1 witness: the deny-listed chart `goes1315` after a concrete full
refresh whose payload still lists it. -/
theorem c1_witness :
    "goes1315" ∈ INACTIVE_CHARTS ∧
    (dictGet "goes1315" (runRefreshes
        [(none, .ok [("goes1315",
            ⟨"GOES 13/15", some "legacy", "https://e/g.png", some "chart", none⟩)], 7)]).data
      = none ∧
    (∀ kv ∈ camera_list (runRefreshes
        [(none, .ok [("goes1315",
            ⟨"GOES 13/15", some "legacy", "https://e/g.png", some "chart", none⟩)], 7)]),
      kv.1 ≠ "goes1315") ∧
    (∀ kv ∈ chart_list (runRefreshes
        [(none, .ok [("goes1315",
            ⟨"GOES 13/15", some "legacy", "https://e/g.png", some "chart", none⟩)], 7)]),
      kv.1 ≠ "goes1315") ∧
    (∀ kv ∈ satellite_list (runRefreshes
        [(none, .ok [("goes1315",
            ⟨"GOES 13/15", some "legacy", "https://e/g.png", some "chart", none⟩)], 7)]),
      kv.1 ≠ "goes1315") ∧
    (view_command "goes1315" (.ok []) 8 9 (runRefreshes
        [(none, .ok [("goes1315",
            ⟨"GOES 13/15", some "legacy", "https://e/g.png", some "chart", none⟩)], 7)])).outcome
      = .message "This chart is currently inactive and unavailable." ∧
    (view_command "goes1315" (.ok []) 8 9 (runRefreshes
        [(none, .ok [("goes1315",
            ⟨"GOES 13/15", some "legacy", "https://e/g.png", some "chart", none⟩)], 7)])).fetchCalls
      ≤ 1) :=
  ⟨by decide,
   c1_denylist_never_surfaced "goes1315" (by decide)
     [(none, .ok [("goes1315",
         ⟨"GOES 13/15", some "legacy", "https://e/g.png", some "chart", none⟩)], 7)]
     (.ok []) 8 9⟩

/-- C2 counterexample: the fetch error is not surfaced to the caller as a
typed result.  `refresh_image_cache` catches the `RequestException`, logs
it, and returns `None`; a `view` whose forced refresh fails is
caller-indistinguishable from one whose fetch succeeded with a payload
lacking the id — same followup, same cache, same call count — and the only
trace of the failure is the process log line.  So the claim's "surfaced to
the caller as a typed result" is false at this concrete input. -/
theorem c2_error_invisible_to_caller :
    (view_command "montreal" (.error "timeout") 5 7 initialCache).outcome =
      (view_command "montreal" (.ok []) 5 7 initialCache).outcome ∧
    (view_command "montreal" (.error "timeout") 5 7 initialCache).cache =
      (view_command "montreal" (.ok []) 5 7 initialCache).cache ∧
    (view_command "montreal" (.error "timeout") 5 7 initialCache).fetchCalls =
      (view_command "montreal" (.ok []) 5 7 initialCache).fetchCalls ∧
    (view_command "montreal" (.error "timeout") 5 7 initialCache).outcome =
      .message "Resource not found" ∧
    (view_command "montreal" (.error "timeout") 5 7 initialCache).log =
      ["API request failed: timeout"] := by
  decide

/-- C2 amended: on fetch failure `refresh_image_cache` leaves the cache —
record map and cache-wide `last_updated` — exactly as it was, issues exactly
one listing GET (no synchronous retry), and only logs the error; no typed
error result reaches the caller. -/
theorem c2_failure_leaves_cache_intact (specific_image : Option String)
    (msg : String) (now : Nat) (c : ImageCache) :
    refresh_image_cache specific_image (.error msg) now c =
      { cache := c, log := ["API request failed: " ++ msg], fetchCalls := 1 } :=
  rfl

/-- C3 counterexample: with three pages, pressing Next while page 0's
`update_owners` run is still in flight moves the view to page 1; when the
page-0 run then completes, its unconditional `message.edit` re-displays
page 0's (now enriched) embed over page 1's rendering — the late result for
the superseded page is applied, not discarded, so the claim fails on this
trace. -/
theorem c3_stale_enrichment_applied :
    (pressStep 3 .next initialServerView).page = 1 ∧
    (pressStep 3 .next initialServerView).shownPage = 1 ∧
    0 ∈ (pressStep 3 .next initialServerView).pending ∧
    ¬ lateResultDiscarded (pressStep 3 .next initialServerView) 0 ∧
    (finishStep 0 (pressStep 3 .next initialServerView)).shownPage = 0 ∧
    (finishStep 0 (pressStep 3 .next initialServerView)).page = 1 := by
  unfold lateResultDiscarded
  decide

/-- C3 amended: navigation does not invalidate enrichment in flight for the
page being left — there is no page/generation token.  Whenever an
`update_owners` run for a page other than the current one completes, it
unconditionally edits the message, so the displayed embed becomes the
superseded page's enriched embed while `self.page` stays on the new page. -/
theorem c3_no_generation_token (s : ServerPageState) (p : Nat)
    (h1 : p ∈ s.pending) (h2 : p ≠ s.page) :
    (finishStep p s).shownPage = p ∧
    (finishStep p s).shownEnriched = true ∧
    (finishStep p s).page = s.page := by
  simp [finishStep, h1]

/-- C3 amended witness: the concrete superseded-page-0 trace. -/
theorem c3_no_generation_token_witness :
    0 ∈ (pressStep 3 .next initialServerView).pending ∧
    0 ≠ (pressStep 3 .next initialServerView).page ∧
    ((finishStep 0 (pressStep 3 .next initialServerView)).shownPage = 0 ∧
     (finishStep 0 (pressStep 3 .next initialServerView)).shownEnriched = true ∧
     (finishStep 0 (pressStep 3 .next initialServerView)).page =
       (pressStep 3 .next initialServerView).page) :=
  ⟨by decide, by decide,
   c3_no_generation_token (pressStep 3 .next initialServerView) 0
     (by decide) (by decide)⟩

/-- C4 counterexample: the delivered URL is built as
`f"{url}?t={...}"` unconditionally, so for a `sourceUrl` that already
carries a query string the code emits a second `?` where the claim requires
an `&`-join. -/
theorem c4_always_appends_question_mark :
    (view_command "synoptic"
        (.ok [("synoptic",
          ⟨"Synoptic", none, "https://e/synoptic.png?size=big", some "chart", none⟩)])
        5 42 initialCache).outcome =
      .embed "Synoptic" "https://e/synoptic.png?size=big?t=42" "" ∧
    specCacheBustUrl "https://e/synoptic.png?size=big" 42 =
      "https://e/synoptic.png?size=big&t=42" ∧
    imageUrl "https://e/synoptic.png?size=big" 42 ≠
      specCacheBustUrl "https://e/synoptic.png?size=big" 42 := by
  decide

/-- C4 amended: every record the `view` command serves is delivered at
`sourceUrl ++ "?t=" ++ <unix-seconds>` — the parameter is always appended
with `?`, also when the sourceUrl already contains a query string. -/
theorem c4_view_url_shape (resource_id : String) (fetch : FetchResult)
    (now tServe : Nat) (c : ImageCache) (found : CachedImage)
    (h1 : resource_id ∉ INACTIVE_CHARTS)
    (h2 : dictGet resource_id
        (refresh_image_cache (some resource_id) fetch now c).cache.data = some found) :
    (view_command resource_id fetch now tServe c).outcome =
      .embed found.raw.name (found.raw.url ++ "?t=" ++ toString tServe)
        (found.raw.description.getD "") := by
  simp [view_command, h1, h2, imageUrl]

/-- C4 amended witness: a concrete query-carrying URL served by `view`. -/
theorem c4_view_url_shape_witness :
    "synoptic" ∉ INACTIVE_CHARTS ∧
    dictGet "synoptic"
      (refresh_image_cache (some "synoptic")
        (.ok [("synoptic",
          ⟨"Synoptic", none, "https://e/synoptic.png?size=big", some "chart", none⟩)])
        5 initialCache).cache.data =
      some ⟨⟨"Synoptic", none, "https://e/synoptic.png?size=big", some "chart", none⟩, 5⟩ ∧
    (view_command "synoptic"
        (.ok [("synoptic",
          ⟨"Synoptic", none, "https://e/synoptic.png?size=big", some "chart", none⟩)])
        5 42 initialCache).outcome =
      .embed "Synoptic"
        ("https://e/synoptic.png?size=big" ++ "?t=" ++ toString 42) "" :=
  ⟨by decide, by decide,
   c4_view_url_shape "synoptic"
     (.ok [("synoptic",
       ⟨"Synoptic", none, "https://e/synoptic.png?size=big", some "chart", none⟩)])
     5 42 initialCache
     ⟨⟨"Synoptic", none, "https://e/synoptic.png?size=big", some "chart", none⟩, 5⟩
     (by decide) (by decide)⟩

/-- C5 counterexample: the cameras listing does not return every active
record of category `cam` — it further filters by name.  A `cam` record
named "Calgary Tower Cam" (an active id, matching category) is dropped by
`cameras_command` although the spec-side `list("cam")` includes it. -/
theorem c5_camera_name_filter :
    camera_list ⟨0, [("calgarycam",
        ⟨⟨"Calgary Tower Cam", some "skyline", "https://e/c.jpg", some "cam", none⟩, 3⟩)]⟩
      = [] ∧
    specListCategory "cam" ⟨0, [("calgarycam",
        ⟨⟨"Calgary Tower Cam", some "skyline", "https://e/c.jpg", some "cam", none⟩, 3⟩)]⟩
      = [("calgarycam",
        ⟨⟨"Calgary Tower Cam", some "skyline", "https://e/c.jpg", some "cam", none⟩, 3⟩)] ∧
    "calgarycam" ∉ INACTIVE_CHARTS ∧
    camera_list ⟨0, [("calgarycam",
        ⟨⟨"Calgary Tower Cam", some "skyline", "https://e/c.jpg", some "cam", none⟩, 3⟩)]⟩
      ≠ specListCategory "cam" ⟨0, [("calgarycam",
        ⟨⟨"Calgary Tower Cam", some "skyline", "https://e/c.jpg", some "cam", none⟩, 3⟩)]⟩ := by
  decide

/-- C5 amended: the charts listing returns exactly the cached records of
category `chart` whose id is not deny-listed, and the satellites listing
exactly those of category `satellite`, each as an order-preserving sublist
of the cache snapshot; the cameras listing additionally restricts to
records whose lowercased name contains `yellowknife` or `rothney`. -/
theorem c5_listing_characterization (c : ImageCache) (kv : String × CachedImage) :
    (kv ∈ camera_list c ↔ kv ∈ c.data ∧ kv.2.raw.category = some "cam" ∧
      (strContainsSub (strToLower kv.2.raw.name) "yellowknife" = true ∨
       strContainsSub (strToLower kv.2.raw.name) "rothney" = true)) ∧
    (kv ∈ chart_list c ↔ kv ∈ c.data ∧ kv.2.raw.category = some "chart" ∧
      kv.1 ∉ INACTIVE_CHARTS) ∧
    (kv ∈ satellite_list c ↔ kv ∈ c.data ∧ kv.2.raw.category = some "satellite") ∧
    List.Sublist (camera_list c) c.data ∧ List.Sublist (chart_list c) c.data ∧
    List.Sublist (satellite_list c) c.data := by
  refine ⟨?_, ?_, ?_, List.filter_sublist _, List.filter_sublist _, List.filter_sublist _⟩
  · simp [camera_list, List.mem_filter, and_assoc]
  · simp [chart_list, List.mem_filter, and_assoc]
  · simp [satellite_list, List.mem_filter]

/-- Bound preservation for one button press: a page index within
`[0, total_pages - 1]` stays within it. -/
theorem pressStep_page_le {tp : Nat} (b : NavButton) {s : ServerPageState}
    (h : s.page ≤ tp - 1) : (pressStep tp b s).page ≤ tp - 1 := by
  cases b with
  | previous =>
    by_cases hg : s.page > 0
    · simp only [pressStep, if_pos hg]
      omega
    · simpa only [pressStep, if_neg hg] using h
  | next =>
    by_cases hg : s.page < tp - 1
    · simp only [pressStep, if_pos hg]
      omega
    · simpa only [pressStep, if_neg hg] using h
  | refreshButton => simpa only [pressStep] using h

/-- Bound preservation along any sequence of button presses. -/
theorem applyButtons_page_le {tp : Nat} (bs : List NavButton) {s : ServerPageState}
    (h : s.page ≤ tp - 1) : (applyButtons tp bs s).page ≤ tp - 1 := by
  induction bs generalizing s with
  | nil => exact h
  | cons b rest ih => exact ih (pressStep_page_le b h)

/-- With at least one item, at least one page. -/
theorem one_le_pageCount {n ps : Nat} (hps : 0 < ps) (hn : 0 < n) :
    1 ≤ pageCount n ps := by
  have h : 1 * ps ≤ n + ps - 1 := by omega
  exact (Nat.le_div_iff_mul_le hps).2 h

/-- C6: the `total_pages` formula is the ceiling of `n / pageSize`
(characterized by its Galois connection: `pageCount n ps ≤ m ↔ n ≤ ps * m`),
the freshly built view starts on page 0, no sequence of
previous/next/refresh presses ever moves the page index outside
`[0, pageCount - 1]` (the lower bound holds in ℕ), and for 23 items at the
source's page size 10 there are 3 pages with three Next presses clamping at
page 2, the third being a no-op. -/
theorem c6_pagination_invariant (n ps : Nat) (hps : 0 < ps) (hn : 0 < n) :
    (∀ m, pageCount n ps ≤ m ↔ n ≤ ps * m) ∧
    initialServerView.page = 0 ∧
    (∀ bs : List NavButton,
      (applyButtons (pageCount n ps) bs initialServerView).page ≤ pageCount n ps - 1) ∧
    pageCount 23 guilds_per_page = 3 ∧
    (applyButtons 3 [.next] initialServerView).page = 1 ∧
    (applyButtons 3 [.next, .next] initialServerView).page = 2 ∧
    applyButtons 3 [.next, .next, .next] initialServerView =
      applyButtons 3 [.next, .next] initialServerView := by
  refine ⟨?_, rfl, ?_, by decide, by decide, by decide, by decide⟩
  · intro m
    rw [show pageCount n ps = n ⌈/⌉ ps from (Nat.ceilDiv_eq_add_pred_div n ps).symm]
    exact ceilDiv_le_iff_le_mul hps
  · intro bs
    have h0 : initialServerView.page ≤ pageCount n ps - 1 := by
      have := one_le_pageCount hps hn
      simp [initialServerView]
    exact applyButtons_page_le bs h0

/-- C6 witness: 23 items at page size 10. -/
theorem c6_pagination_invariant_witness :
    0 < 10 ∧ 0 < 23 ∧
    ((∀ m, pageCount 23 10 ≤ m ↔ 23 ≤ 10 * m) ∧
     initialServerView.page = 0 ∧
     (∀ bs : List NavButton,
       (applyButtons (pageCount 23 10) bs initialServerView).page ≤ pageCount 23 10 - 1) ∧
     pageCount 23 guilds_per_page = 3 ∧
     (applyButtons 3 [.next] initialServerView).page = 1 ∧
     (applyButtons 3 [.next, .next] initialServerView).page = 2 ∧
     applyButtons 3 [.next, .next, .next] initialServerView =
       applyButtons 3 [.next, .next] initialServerView) :=
  ⟨by decide, by decide, c6_pagination_invariant 23 10 (by decide) (by decide)⟩

/-- C7: a successful single-record refresh for a payload id that is not
deny-listed rewrites exactly that record's binding, stamped with the run's
timestamp; every other id's binding and the cache-wide `last_updated` are
untouched, and nothing is logged. -/
theorem c7_refresh_one_frame (s : String) (fresh : List (String × RawImage))
    (raw : RawImage) (now : Nat) (c : ImageCache)
    (h1 : dictGet s fresh = some raw) (h2 : s ∉ INACTIVE_CHARTS) :
    (refresh_image_cache (some s) (.ok fresh) now c).cache.last_updated =
      c.last_updated ∧
    dictGet s (refresh_image_cache (some s) (.ok fresh) now c).cache.data =
      some ⟨raw, now⟩ ∧
    (∀ k, k ≠ s →
      dictGet k (refresh_image_cache (some s) (.ok fresh) now c).cache.data =
        dictGet k c.data) ∧
    (refresh_image_cache (some s) (.ok fresh) now c).log = [] := by
  refine ⟨?_, ?_, ?_, ?_⟩
  · simp [refresh_image_cache, h1, h2]
  · simp [refresh_image_cache, h1, h2, dictGet_dictSet_self]
  · intro k hk
    simp [refresh_image_cache, h1, h2, dictGet_dictSet_ne hk]
  · simp [refresh_image_cache, h1, h2]

/-- C7 witness: refreshing `sacecam` in a two-record cache leaves the other
record and the cache-wide timestamp alone. -/
theorem c7_refresh_one_frame_witness :
    dictGet "sacecam" ([("sacecam",
        ⟨"SACE Cam", none, "https://e/new.jpg", some "cam", some 60⟩)] :
        List (String × RawImage)) =
      some ⟨"SACE Cam", none, "https://e/new.jpg", some "cam", some 60⟩ ∧
    "sacecam" ∉ INACTIVE_CHARTS ∧
    ((refresh_image_cache (some "sacecam")
        (.ok [("sacecam", ⟨"SACE Cam", none, "https://e/new.jpg", some "cam", some 60⟩)])
        9 ⟨4, [("sacecam", ⟨⟨"SACE Cam", none, "https://e/old.jpg", some "cam", some 60⟩, 2⟩),
              ("other", ⟨⟨"Other", none, "https://e/o.jpg", some "chart", none⟩, 3⟩)]⟩).cache.last_updated
      = 4 ∧
    dictGet "sacecam" (refresh_image_cache (some "sacecam")
        (.ok [("sacecam", ⟨"SACE Cam", none, "https://e/new.jpg", some "cam", some 60⟩)])
        9 ⟨4, [("sacecam", ⟨⟨"SACE Cam", none, "https://e/old.jpg", some "cam", some 60⟩, 2⟩),
              ("other", ⟨⟨"Other", none, "https://e/o.jpg", some "chart", none⟩, 3⟩)]⟩).cache.data
      = some ⟨⟨"SACE Cam", none, "https://e/new.jpg", some "cam", some 60⟩, 9⟩ ∧
    (∀ k, k ≠ "sacecam" →
      dictGet k (refresh_image_cache (some "sacecam")
        (.ok [("sacecam", ⟨"SACE Cam", none, "https://e/new.jpg", some "cam", some 60⟩)])
        9 ⟨4, [("sacecam", ⟨⟨"SACE Cam", none, "https://e/old.jpg", some "cam", some 60⟩, 2⟩),
              ("other", ⟨⟨"Other", none, "https://e/o.jpg", some "chart", none⟩, 3⟩)]⟩).cache.data
      = dictGet k [("sacecam", ⟨⟨"SACE Cam", none, "https://e/old.jpg", some "cam", some 60⟩, 2⟩),
              ("other", ⟨⟨"Other", none, "https://e/o.jpg", some "chart", none⟩, 3⟩)]) ∧
    (refresh_image_cache (some "sacecam")
        (.ok [("sacecam", ⟨"SACE Cam", none, "https://e/new.jpg", some "cam", some 60⟩)])
        9 ⟨4, [("sacecam", ⟨⟨"SACE Cam", none, "https://e/old.jpg", some "cam", some 60⟩, 2⟩),
              ("other", ⟨⟨"Other", none, "https://e/o.jpg", some "chart", none⟩, 3⟩)]⟩).log
      = []) :=
  ⟨by decide, by decide,
   c7_refresh_one_frame "sacecam"
     [("sacecam", ⟨"SACE Cam", none, "https://e/new.jpg", some "cam", some 60⟩)]
     ⟨"SACE Cam", none, "https://e/new.jpg", some "cam", some 60⟩ 9
     ⟨4, [("sacecam", ⟨⟨"SACE Cam", none, "https://e/old.jpg", some "cam", some 60⟩, 2⟩),
          ("other", ⟨⟨"Other", none, "https://e/o.jpg", some "chart", none⟩, 3⟩)]⟩
     (by decide) (by decide)⟩

/-- C8: after a successful full refresh that started at `tCall` and stamped
with `now ≥ tCall`, every payload id that is not deny-listed looks up to a
record carrying `last_updated = now ≥ tCall`. -/
theorem c8_refresh_all_stamps (x : String) (fresh : List (String × RawImage))
    (raw : RawImage) (tCall now : Nat) (c : ImageCache)
    (h1 : dictGet x fresh = some raw) (h2 : x ∉ INACTIVE_CHARTS)
    (h3 : tCall ≤ now) :
    ∃ r : CachedImage,
      dictGet x (refresh_image_cache none (.ok fresh) now c).cache.data = some r ∧
      tCall ≤ r.last_updated ∧ r = ⟨raw, now⟩ := by
  refine ⟨⟨raw, now⟩, ?_, h3, rfl⟩
  simpa [refresh_image_cache] using dictGet_stampAll_mem now h2 h1

/-- C8 witness: a concrete full refresh at time 12 begun at time 11. -/
theorem c8_refresh_all_stamps_witness :
    dictGet "yellowknife" ([("yellowknife",
        ⟨"Yellowknife", some "aurora cam", "https://e/yk.jpg", some "cam", some 300⟩)] :
        List (String × RawImage)) =
      some ⟨"Yellowknife", some "aurora cam", "https://e/yk.jpg", some "cam", some 300⟩ ∧
    "yellowknife" ∉ INACTIVE_CHARTS ∧ 11 ≤ 12 ∧
    (∃ r : CachedImage,
      dictGet "yellowknife" (refresh_image_cache none
        (.ok [("yellowknife",
          ⟨"Yellowknife", some "aurora cam", "https://e/yk.jpg", some "cam", some 300⟩)])
        12 initialCache).cache.data = some r ∧
      11 ≤ r.last_updated ∧
      r = ⟨⟨"Yellowknife", some "aurora cam", "https://e/yk.jpg", some "cam", some 300⟩, 12⟩) :=
  ⟨by decide, by decide, by decide,
   c8_refresh_all_stamps "yellowknife"
     [("yellowknife",
       ⟨"Yellowknife", some "aurora cam", "https://e/yk.jpg", some "cam", some 300⟩)]
     ⟨"Yellowknife", some "aurora cam", "https://e/yk.jpg", some "cam", some 300⟩
     11 12 initialCache (by decide) (by decide) (by decide)⟩

/-- C9 counterexample: the code exposes no `isFresh`/TTL gate.  In a cache
whose single record is maximally fresh by the spec's own `isFresh`
definition (just stamped, TTL 900 from the payload `cache` field), the
satellites listing still issues a listing GET — freshness never suppresses
the refresh, because no code path consults `last_updated` or the stored
`cache` field. -/
theorem c9_fresh_cache_still_fetches :
    isFreshSpec 100 ⟨100, [("isswest",
        ⟨⟨"ISS West", some "orbital", "https://e/iss.jpg", some "satellite", some 900⟩, 100⟩)]⟩
      "isswest" = true ∧
    (⟨100, [("isswest",
        ⟨⟨"ISS West", some "orbital", "https://e/iss.jpg", some "satellite", some 900⟩, 100⟩)]⟩
      : ImageCache).data.map Prod.fst = ["isswest"] ∧
    (listing_command satellite_list
        (.ok [("isswest",
          ⟨"ISS West", some "orbital", "https://e/iss.jpg", some "satellite", some 900⟩)])
        100 ⟨100, [("isswest",
          ⟨⟨"ISS West", some "orbital", "https://e/iss.jpg", some "satellite", some 900⟩, 100⟩)]⟩).fetchCalls
      = 1 := by
  decide

/-- C9 amended: there is no freshness gate.  Even when every cached record
satisfies the spec's `isFresh` at the current time, a listing command
performs its listing GET unconditionally. -/
theorem c9_unconditional_listing_fetch
    (select : ImageCache → List (String × CachedImage)) (fetch : FetchResult)
    (now : Nat) (c : ImageCache)
    (hfresh : ∀ kv ∈ c.data, isFreshSpec now c kv.1 = true) :
    (listing_command select fetch now c).fetchCalls = 1 := by
  cases fetch <;> rfl

/-- C9 amended witness: the maximally fresh single-record cache. -/
theorem c9_unconditional_listing_fetch_witness :
    (∀ kv ∈ (⟨100, [("isswest",
        ⟨⟨"ISS West", some "orbital", "https://e/iss.jpg", some "satellite", some 900⟩, 100⟩)]⟩
      : ImageCache).data,
      isFreshSpec 100 ⟨100, [("isswest",
        ⟨⟨"ISS West", some "orbital", "https://e/iss.jpg", some "satellite", some 900⟩, 100⟩)]⟩
        kv.1 = true) ∧
    (listing_command satellite_list (.ok []) 100 ⟨100, [("isswest",
        ⟨⟨"ISS West", some "orbital", "https://e/iss.jpg", some "satellite", some 900⟩, 100⟩)]⟩).fetchCalls
      = 1 :=
  ⟨by decide,
   c9_unconditional_listing_fetch satellite_list (.ok []) 100
     ⟨100, [("isswest",
       ⟨⟨"ISS West", some "orbital", "https://e/iss.jpg", some "satellite", some 900⟩, 100⟩)]⟩
     (by decide)⟩

/-- C10: a single-record refresh whose id is absent from the payload or
deny-listed is a complete no-op on the cache and signals nothing: the run
returns the cache exactly as it was, logs no error, issues its one listing
GET, and a subsequent lookup of the id sees whatever was cached before. -/
theorem c10_refresh_one_miss_noop (s : String) (fresh : List (String × RawImage))
    (now : Nat) (c : ImageCache)
    (h : dictGet s fresh = none ∨ s ∈ INACTIVE_CHARTS) :
    refresh_image_cache (some s) (.ok fresh) now c =
      { cache := c, log := [], fetchCalls := 1 } ∧
    dictGet s (refresh_image_cache (some s) (.ok fresh) now c).cache.data =
      dictGet s c.data := by
  have heq : refresh_image_cache (some s) (.ok fresh) now c =
      { cache := c, log := [], fetchCalls := 1 } := by
    rcases h with h | h
    · simp [refresh_image_cache, h]
    · cases hg : dictGet s fresh with
      | none => simp [refresh_image_cache, hg]
      | some raw => simp [refresh_image_cache, hg, h]
  exact ⟨heq, by rw [heq]⟩

/-- C10 witness: a stale cached record for the deny-listed `hobartmag`,
still served by `get` after the no-op forced refresh, and a miss id absent
from the payload. -/
theorem c10_refresh_one_miss_noop_witness :
    (dictGet "hobartmag" ([("other",
        ⟨"Other", none, "https://e/o.jpg", some "chart", none⟩)] :
        List (String × RawImage)) = none ∨
      "hobartmag" ∈ INACTIVE_CHARTS) ∧
    (refresh_image_cache (some "hobartmag")
        (.ok [("other", ⟨"Other", none, "https://e/o.jpg", some "chart", none⟩)])
        50 ⟨9, [("hobartmag",
          ⟨⟨"Hobart Mag", none, "https://e/h.png", some "chart", none⟩, 1⟩)]⟩ =
      { cache := ⟨9, [("hobartmag",
          ⟨⟨"Hobart Mag", none, "https://e/h.png", some "chart", none⟩, 1⟩)]⟩,
        log := [], fetchCalls := 1 } ∧
    dictGet "hobartmag" (refresh_image_cache (some "hobartmag")
        (.ok [("other", ⟨"Other", none, "https://e/o.jpg", some "chart", none⟩)])
        50 ⟨9, [("hobartmag",
          ⟨⟨"Hobart Mag", none, "https://e/h.png", some "chart", none⟩, 1⟩)]⟩).cache.data =
      dictGet "hobartmag" [("hobartmag",
        ⟨⟨"Hobart Mag", none, "https://e/h.png", some "chart", none⟩, 1⟩)]) :=
  ⟨Or.inr (by decide),
   c10_refresh_one_miss_noop "hobartmag"
     [("other", ⟨"Other", none, "https://e/o.jpg", some "chart", none⟩)] 50
     ⟨9, [("hobartmag",
       ⟨⟨"Hobart Mag", none, "https://e/h.png", some "chart", none⟩, 1⟩)]⟩
     (Or.inr (by decide))⟩
